import Mathlib

/-!
Verification of the aiswarm CLI task-lifecycle core (`aiswarm_cli/main.py`).

The Python source is shallowly embedded: pure string manipulation becomes
Lean functions on `String`/`List Char`; the effectful CLI commands (`init`,
`task`, `complete`, `status`) become pure functions from an explicit
filesystem model and a git-subprocess oracle to a trace of effects plus an
outcome.  A git invocation is `subprocess.run` with `check=True`: the oracle
reports either success (with captured stdout) or a nonzero exit
(`CalledProcessError`).
-/

namespace AiSwarm

/-! ## Character classes (ASCII, as used by the Python regexes) -/

/-- Membership in the character class kept by the first regex substitution
of the sanitizer (which deletes everything else): ASCII letters, digits,
and the space character. -/
def keepChar (c : Char) : Bool :=
  (97 ≤ c.toNat && c.toNat ≤ 122) || (65 ≤ c.toNat && c.toNat ≤ 90) ||
    (48 ≤ c.toNat && c.toNat ≤ 57) || c.toNat == 32

/-- ASCII uppercase letter test. -/
def isAsciiUpper (c : Char) : Bool :=
  65 ≤ c.toNat && c.toNat ≤ 90

/-- Python `str.lower()` restricted to the ASCII range (the only range that
survives the preceding regex filter). -/
def lowerAscii (c : Char) : Char :=
  if isAsciiUpper c then Char.ofNat (c.toNat + 32) else c

/-- Python regex `\s` over the characters reachable here (ASCII whitespace):
space, tab, newline, carriage return, vertical tab, form feed. -/
def isPySpace (c : Char) : Bool :=
  c.toNat == 32 || c.toNat == 9 || c.toNat == 10 || c.toNat == 13 ||
    c.toNat == 11 || c.toNat == 12

/-- Characters allowed in a sanitized branch name: `[a-z0-9-]`. -/
def goodChar (c : Char) : Bool :=
  (97 ≤ c.toNat && c.toNat ≤ 122) || (48 ≤ c.toNat && c.toNat ≤ 57) ||
    c.toNat == 45

/-- Characters present after filtering and lowercasing: `[a-z0-9 ]`. -/
def midChar (c : Char) : Bool :=
  (97 ≤ c.toNat && c.toNat ≤ 122) || (48 ≤ c.toNat && c.toNat ≤ 57) ||
    c.toNat == 32

/-! ## The sanitizer (`get_sanitized_branch_name`) -/

/-- One pass of the whitespace-collapsing regex substitution: each maximal
run of whitespace becomes a single hyphen.  The boolean tracks whether the previous character
was part of a whitespace run. -/
def collapseAux : Bool → List Char → List Char
  | _, [] => []
  | prevWs, c :: rest =>
    if isPySpace c then
      if prevWs then collapseAux true rest
      else '-' :: collapseAux true rest
    else c :: collapseAux false rest

/-- The whitespace-run-to-hyphen substitution applied to a whole list. -/
def collapseWs (l : List Char) : List Char :=
  collapseAux false l

/-- `get_sanitized_branch_name(prompt)` from `main.py`: strip every character
outside `[a-zA-Z0-9 ]`, lowercase, collapse whitespace runs to single
hyphens, truncate to 50 characters. -/
def get_sanitized_branch_name (prompt : String) : String :=
  ⟨(collapseWs ((prompt.data.filter keepChar).map lowerAscii)).take 50⟩

/-! ## Character-level lemmas -/

theorem char_toNat_ofNat_small (n : Nat) (h : n < 55296) :
    (Char.ofNat n).toNat = n := by
  have hv : n.isValidChar := Or.inl h
  simp only [Char.ofNat, hv, dif_pos]
  rfl

theorem lowerAscii_mid (c : Char) (h : keepChar c = true) :
    midChar (lowerAscii c) = true := by
  unfold keepChar at h
  unfold lowerAscii isAsciiUpper
  by_cases hu : (65 ≤ c.toNat && c.toNat ≤ 90) = true
  · simp only [hu, if_pos]
    simp only [Bool.and_eq_true, decide_eq_true_eq] at hu
    have hlt : c.toNat + 32 < 55296 := by omega
    unfold midChar
    rw [char_toNat_ofNat_small _ hlt]
    simp only [Bool.or_eq_true, Bool.and_eq_true, decide_eq_true_eq, beq_iff_eq]
    omega
  · simp only [hu, if_neg, Bool.false_eq_true, not_false_iff]
    unfold midChar
    simp only [Bool.or_eq_true, Bool.and_eq_true, decide_eq_true_eq, beq_iff_eq] at h ⊢
    simp only [Bool.and_eq_true, decide_eq_true_eq] at hu
    omega

theorem mid_not_space_good (c : Char) (hm : midChar c = true)
    (hs : isPySpace c = false) : goodChar c = true := by
  unfold midChar at hm
  unfold isPySpace at hs
  unfold goodChar
  simp only [Bool.or_eq_true, Bool.and_eq_true, decide_eq_true_eq, beq_iff_eq,
    Bool.or_eq_false_iff, beq_eq_false_iff_ne, ne_eq] at hm hs ⊢
  omega

theorem good_not_space (c : Char) (hg : goodChar c = true) :
    isPySpace c = false := by
  unfold goodChar at hg
  unfold isPySpace
  simp only [Bool.or_eq_true, Bool.and_eq_true, decide_eq_true_eq, beq_iff_eq,
    Bool.or_eq_false_iff, beq_eq_false_iff_ne, ne_eq] at hg ⊢
  omega

theorem good_not_upper (c : Char) (hg : goodChar c = true) :
    isAsciiUpper c = false := by
  unfold goodChar at hg
  unfold isAsciiUpper
  simp only [Bool.or_eq_true, Bool.and_eq_true, decide_eq_true_eq, beq_iff_eq,
    Bool.and_eq_false_iff, Bool.not_eq_true, decide_eq_false_iff_not, not_le] at hg ⊢
  omega

theorem hyphen_good : goodChar '-' = true := by decide

theorem collapseAux_mem (l : List Char) :
    ∀ b, (∀ c ∈ l, midChar c = true) →
      ∀ c ∈ collapseAux b l, goodChar c = true := by
  induction l with
  | nil => intro b _ c hc; simp [collapseAux] at hc
  | cons x rest ih =>
    intro b hl c hc
    have hx : midChar x = true := hl x (List.mem_cons_self x rest)
    have hrest : ∀ c ∈ rest, midChar c = true :=
      fun c hc => hl c (List.mem_cons_of_mem x hc)
    unfold collapseAux at hc
    by_cases hsp : isPySpace x = true
    · rw [if_pos hsp] at hc
      cases b with
      | true => exact ih true hrest c hc
      | false =>
        rw [if_neg (by decide)] at hc
        rcases List.mem_cons.mp hc with h1 | h2
        · subst h1; exact hyphen_good
        · exact ih true hrest c h2
    · rw [if_neg hsp] at hc
      rcases List.mem_cons.mp hc with h1 | h2
      · subst h1
        exact mid_not_space_good c hx (Bool.not_eq_true _ ▸ hsp)
      · exact ih false hrest c h2

theorem sanitize_all_good (s : String) :
    ∀ c ∈ (get_sanitized_branch_name s).data, goodChar c = true := by
  intro c hc
  unfold get_sanitized_branch_name at hc
  simp only at hc
  have hc' : c ∈ collapseWs ((s.data.filter keepChar).map lowerAscii) :=
    List.take_subset 50 _ hc
  apply collapseAux_mem _ false _ c hc'
  intro d hd
  rcases List.mem_map.mp hd with ⟨e, he, rfl⟩
  exact lowerAscii_mid e (List.of_mem_filter he)

theorem sanitize_length_le (s : String) :
    (get_sanitized_branch_name s).length ≤ 50 := by
  unfold get_sanitized_branch_name String.length
  simp only
  rw [List.length_take]
  exact Nat.min_le_left _ _

/-! ## Python string helpers used by the `task` command -/

/-- Python `str.strip()` over the ASCII whitespace characters. -/
def stripList (l : List Char) : List Char :=
  ((l.dropWhile isPySpace).reverse.dropWhile isPySpace).reverse

/-- Python `s.strip()`. -/
def pyStrip (s : String) : String := ⟨stripList s.data⟩

/-- Python string replace of the double-quote character by nothing: drop
every double-quote character. -/
def removeQuotes (s : String) : String := ⟨s.data.filter (fun c => !(c == '"'))⟩

/-- Python `os.path.basename` on a POSIX path: the part after the last slash. -/
def basename (p : String) : String :=
  ⟨(p.data.reverse.takeWhile (fun c => !(c == '/'))).reverse⟩

/-- Python `os.path.abspath` for a path relative to the working directory. -/
def abspath (cwd p : String) : String := cwd ++ "/" ++ p

/-! ## JSON values stored under the `default_branch` key -/

/-- JSON scalar values a configuration key can hold. -/
inductive JVal
  | jnull
  | jbool (b : Bool)
  | jnum (n : Int)
  | jstr (s : String)
deriving DecidableEq

/-- Python `str(_)` applied to a decoded JSON scalar. -/
def pyStr : JVal → String
  | .jnull => "None"
  | .jbool true => "True"
  | .jbool false => "False"
  | .jnum n => toString n
  | .jstr s => s

/-! ## Configuration file and source-branch resolution -/

/-- State of `.aiswarm/config.json` as seen by `json.load`: absent
(raising `FileNotFoundError` on `open`), present but not decodable JSON
(raising `json.JSONDecodeError`), or a decoded object of which only the
`default_branch` key matters here (`none` when the key is absent). -/
inductive ConfigFileState
  | missing
  | malformed
  | valid (default_branch : Option JVal)
deriving DecidableEq

/-- Exceptions that can escape the `task` command. -/
inductive PyExn
  | jsonDecodeError
deriving DecidableEq

/-- The `try: open/json.load ... except FileNotFoundError` block of `task`:
only a missing file is caught (yielding `"master"`); a malformed file
raises `json.JSONDecodeError`, which no handler catches.  On a decoded
object the value of `default_branch` (default `"master"`) is passed through
`str(_).strip().replace('"', '')`. -/
def loadDefaultBranch : ConfigFileState → Except PyExn String
  | .missing => .ok "master"
  | .malformed => .error .jsonDecodeError
  | .valid db => .ok (removeQuotes (pyStrip (pyStr (db.getD (JVal.jstr "master")))))

/-- Source-branch determination in `task`: an explicit `--from-branch` is
used verbatim and skips the configuration read entirely. -/
def sourceBranchResult (cfg : ConfigFileState) : Option String → Except PyExn String
  | some b => .ok b
  | none => loadDefaultBranch cfg

/-! ## Filesystem model and effect traces -/

/-- The filesystem facts the commands consult, plus the parsed state of the
configuration file. -/
structure FS where
  cwd : String
  isFile : String → Bool
  pathExists : String → Bool
  readFile : String → String
  listdir : String → List String
  config : ConfigFileState

/-- Observable actions of a command, in program order: git subprocess
invocations, the configuration-file read, directory creation, file writes,
and messages to stdout/stderr. -/
inductive Effect
  | runGit (args : List String)
  | readConfigFile
  | makeDirs (path : String)
  | writeFile (path : String) (content : String)
  | echo (msg : String)
  | echoErr (msg : String)
deriving DecidableEq

/-- Result of one `subprocess.run([...], check=True)` git call: success with
captured stdout, or a nonzero exit (`CalledProcessError`) with diagnostic
text. -/
inductive GitRes
  | ok (stdout : String)
  | fail (msg : String)
deriving DecidableEq

def isRunGit : Effect → Bool
  | .runGit _ => true
  | _ => false

/-- Effects that mutate filesystem or VCS state (as opposed to reads and
console messages). -/
def isMutation : Effect → Bool
  | .runGit _ => true
  | .makeDirs _ => true
  | .writeFile _ _ => true
  | _ => false

def isReadConfig : Effect → Bool
  | .readConfigFile => true
  | _ => false

def isWriteFile : Effect → Bool
  | .writeFile _ _ => true
  | _ => false

def configFilePath : String := ".aiswarm/config.json"

/-- Writes that touch the configuration document. -/
def writesConfigFile : Effect → Bool
  | .writeFile p _ => p == configFilePath
  | _ => false

def gitArgs : Effect → Option (List String)
  | .runGit a => some a
  | _ => none

/-- The sequence of git command lines inside an effect trace. -/
def gitTrace (effs : List Effect) : List (List String) := effs.filterMap gitArgs

/-! ## The `task` command -/

/-- The `--test-action` choice (a click Choice between create and modify). -/
inductive TestAction
  | create
  | modify
deriving DecidableEq

/-- The click default for `--test-action`: an omitted option arrives at the
handler as create. -/
def resolveTestAction (o : Option TestAction) : TestAction :=
  o.getD TestAction.create

def implementMsg : String :=
  "Your turn, Gemini. Please implement the requested feature."

def createMsg (tf : String) : String :=
  "Your turn, Gemini. Please create a failing test in \x60" ++ tf ++
    "\x60 that satisfies the user\x27s request."

def modifyMsg (tf : String) : String :=
  "Your turn, Gemini. Please modify the test in \x60" ++ tf ++
    "\x60 to add a new assertion that satisfies the user\x27s request."

/-- The next-action hint written into the context document.  `if test_file:`
in Python is false for `None` and for the empty string. -/
def nextAction (test_file : Option String) (test_action : TestAction) : String :=
  match test_file with
  | none => implementMsg
  | some tf =>
    if tf == "" then implementMsg
    else
      match test_action with
      | .create => createMsg tf
      | .modify => modifyMsg tf

/-- The body of `.aiswarm/context.md` (the f-string template in `task`). -/
def contextContent (prompt_text wt_abs : String) (tf : Option String)
    (ta : TestAction) : String :=
  "# AI Swarm: Active Task\n\n**Task:** " ++ prompt_text ++
    "\n\n**Status:** Awaiting implementation.\n\n**Worktree:** " ++ wt_abs ++
    "\n\n**➡️ Next Action:** " ++ nextAction tf ta ++ "\n"

/-- Arguments of the `task` command after click parsing (the variadic
positional `prompt`, and the three options). -/
structure TaskArgs where
  prompt : List String
  from_branch : Option String
  test_file : Option String
  test_action : TestAction

/-- `" ".join(prompt)`. -/
def taskPromptOrPath (a : TaskArgs) : String := String.intercalate " " a.prompt

/-- Task description: contents of the named file when the joined prompt is
an existing file path, the joined prompt itself otherwise. -/
def taskPromptText (fs : FS) (a : TaskArgs) : String :=
  if fs.isFile (taskPromptOrPath a) then fs.readFile (taskPromptOrPath a)
  else taskPromptOrPath a

/-- Branch name: sanitized base name of the file in the file case, sanitized
prompt text otherwise. -/
def taskBranchName (fs : FS) (a : TaskArgs) : String :=
  if fs.isFile (taskPromptOrPath a) then
    get_sanitized_branch_name (basename (taskPromptOrPath a))
  else get_sanitized_branch_name (taskPromptOrPath a)

/-- The first echo of `task`. -/
def taskReceiveEcho (fs : FS) (a : TaskArgs) : Effect :=
  if fs.isFile (taskPromptOrPath a) then
    .echo ("Received new task from file: " ++ taskPromptOrPath a)
  else .echo ("Received new task: " ++ taskPromptOrPath a)

/-- The `git worktree add -b` command line. -/
def worktreeAddCmd (branch_name worktree_path source_branch : String) :
    List String :=
  ["git", "worktree", "add", "-b", branch_name, worktree_path, source_branch]

/-- Continuation of `task` once the source branch is known: existence check
on the worktree path, worktree creation, context-file write.  A failing git
call is caught and reported on stderr; the command still returns normally. -/
def taskGo (fs : FS) (git : List String → GitRes) (a : TaskArgs)
    (pre : List Effect) (source_branch : String) :
    List Effect × Except PyExn Unit :=
  let branch_name := taskBranchName fs a
  let worktree_path := ".worktrees/" ++ branch_name
  if fs.pathExists worktree_path then
    (pre ++ [.echo "Worktree for this task already exists."], .ok ())
  else
    match git (worktreeAddCmd branch_name worktree_path source_branch) with
    | .fail msg =>
      (pre ++ [.runGit (worktreeAddCmd branch_name worktree_path source_branch),
        .echoErr ("Error creating git worktree: " ++ msg)], .ok ())
    | .ok _ =>
      let context_dir := worktree_path ++ "/.aiswarm"
      let context_file := context_dir ++ "/context.md"
      (pre ++ [.runGit (worktreeAddCmd branch_name worktree_path source_branch),
        .echo ("Created new worktree in: " ++ worktree_path),
        .makeDirs context_dir,
        .writeFile context_file
          (contextContent (taskPromptText fs a) (abspath fs.cwd worktree_path)
            a.test_file a.test_action),
        .echo ("Created dynamic context file: " ++ context_file),
        .echo ("Task \x27" ++ branch_name ++ "\x27 started.")], .ok ())

/-- The `task` command: resolve the prompt, resolve the source branch (an
explicit `--from-branch` skips the configuration read; otherwise the read is
attempted and only `FileNotFoundError` is caught), then create the worktree.
A `json.JSONDecodeError` escapes the command. -/
def task (fs : FS) (git : List String → GitRes) (a : TaskArgs) :
    List Effect × Except PyExn Unit :=
  let pre0 := [taskReceiveEcho fs a]
  match a.from_branch with
  | some sb => taskGo fs git a pre0 sb
  | none =>
    match loadDefaultBranch fs.config with
    | .error e => (pre0 ++ [.readConfigFile], .error e)
    | .ok sb => taskGo fs git a (pre0 ++ [.readConfigFile]) sb

/-! ## The `complete` command -/

/-- Outcome classification of `complete`: missing worktree directory, a git
step returning nonzero, or full success. -/
inductive CompleteOutcome
  | notFound
  | vcsFailed
  | completed
deriving DecidableEq

/-- Stderr message for a caught `CalledProcessError` in `complete`. -/
def gitErrEcho (m : String) : Effect :=
  .echoErr ("Error during git operation: " ++ m)

/-- The six git command lines `complete task_name` issues, in program
order: stage, commit (allow-empty), query current branch of the outer
repository, merge without fast-forward, remove worktree, delete branch.
The task name is used verbatim throughout. -/
def completeCmds (tn : String) : List (List String) :=
  [["git", "-C", ".worktrees/" ++ tn, "add", "."],
   ["git", "-C", ".worktrees/" ++ tn, "commit", "--allow-empty", "-m",
     "feat: Complete task " ++ tn],
   ["git", "rev-parse", "--abbrev-ref", "HEAD"],
   ["git", "merge", "--no-ff", tn],
   ["git", "worktree", "remove", ".worktrees/" ++ tn],
   ["git", "branch", "-d", tn]]

/-- The `complete` command.  The worktree path is checked first; each git
step runs only if every earlier one succeeded; the first failure stops the
sequence with a stderr message and nothing is rolled back. -/
def complete (fs : FS) (git : List String → GitRes) (task_name : String) :
    List Effect × CompleteOutcome :=
  let e0 := Effect.echo ("Completing task: " ++ task_name)
  let worktree_path := ".worktrees/" ++ task_name
  if fs.pathExists worktree_path then
    let c1 := ["git", "-C", worktree_path, "add", "."]
    let c2 := ["git", "-C", worktree_path, "commit", "--allow-empty", "-m",
      "feat: Complete task " ++ task_name]
    let c3 := ["git", "rev-parse", "--abbrev-ref", "HEAD"]
    let eCommit := Effect.echo "Committing final changes in worktree..."
    match git c1 with
    | .fail m => ([e0, eCommit, .runGit c1, gitErrEcho m], .vcsFailed)
    | .ok _ =>
      match git c2 with
      | .fail m => ([e0, eCommit, .runGit c1, .runGit c2, gitErrEcho m], .vcsFailed)
      | .ok _ =>
        match git c3 with
        | .fail m =>
          ([e0, eCommit, .runGit c1, .runGit c2, .runGit c3, gitErrEcho m],
            .vcsFailed)
        | .ok out =>
          let target_branch := pyStrip out
          let eTarget := Effect.echo ("Target branch for merge is: " ++ target_branch)
          let eMerge := Effect.echo
            ("Merging " ++ task_name ++ " into " ++ target_branch ++ "...")
          let c4 := ["git", "merge", "--no-ff", task_name]
          match git c4 with
          | .fail m =>
            ([e0, eCommit, .runGit c1, .runGit c2, .runGit c3, eTarget, eMerge,
              .runGit c4, gitErrEcho m], .vcsFailed)
          | .ok _ =>
            let eClean := Effect.echo "Cleaning up worktree and branch..."
            let c5 := ["git", "worktree", "remove", worktree_path]
            let c6 := ["git", "branch", "-d", task_name]
            match git c5 with
            | .fail m =>
              ([e0, eCommit, .runGit c1, .runGit c2, .runGit c3, eTarget, eMerge,
                .runGit c4, eClean, .runGit c5, gitErrEcho m], .vcsFailed)
            | .ok _ =>
              match git c6 with
              | .fail m =>
                ([e0, eCommit, .runGit c1, .runGit c2, .runGit c3, eTarget,
                  eMerge, .runGit c4, eClean, .runGit c5, .runGit c6,
                  gitErrEcho m], .vcsFailed)
              | .ok _ =>
                ([e0, eCommit, .runGit c1, .runGit c2, .runGit c3, eTarget,
                  eMerge, .runGit c4, eClean, .runGit c5, .runGit c6,
                  .echo ("Task \x27" ++ task_name ++
                    "\x27 completed and merged successfully.")], .completed)
  else
    ([e0, .echoErr ("Error: Worktree for task \x27" ++ task_name ++
      "\x27 not found.")], .notFound)

/-! ## The `status` command -/

/-- The `status` command: list the entries of `.worktrees`, or report that
no task is active when the directory is absent or empty. -/
def status (fs : FS) : List Effect :=
  let e0 := Effect.echo "Displaying status of all active tasks..."
  if !(fs.pathExists ".worktrees") || (fs.listdir ".worktrees").isEmpty then
    [e0, .echo "No active tasks."]
  else
    [e0, .echo "Active tasks (worktrees):"] ++
      (fs.listdir ".worktrees").map (fun t => Effect.echo ("- " ++ t))

/-! ## The `init` command -/

/-- Options of `init`. -/
structure InitArgs where
  test_command : Option String
  port : Option String
  default_branch : Option String

/-- What `click.prompt` returns for each omitted option when the command is
about to write a fresh configuration file (user input, or the default of
the prompt). -/
structure PromptAnswers where
  test_command : String
  port : String
  default_branch : String

/-- Python `json.dump` escaping of a string value. -/
def jsonEscapeChar (c : Char) : List Char :=
  if c == '"' then ['\\', '"']
  else if c == '\\' then ['\\', '\\']
  else if c == '\n' then ['\\', 'n']
  else if c == '\t' then ['\\', 't']
  else if c == '\r' then ['\\', 'r']
  else [c]

def jsonEscape (s : String) : String := ⟨(s.data.map jsonEscapeChar).flatten⟩

/-- The text `json.dump(config_data, f, indent=4)` produces for the
three-key configuration object. -/
def renderConfig (tc server db : String) : String :=
  "\x7b\n    \"test_command\": \"" ++ jsonEscape tc ++
    "\",\n    \"mcp_jetbrains_server\": \"" ++ jsonEscape server ++
    "\",\n    \"default_branch\": \"" ++ jsonEscape db ++ "\"\n\x7d"

/-- The `init` command: create `.aiswarm` when absent; when no configuration
file exists, resolve each omitted option interactively and write the file;
when one exists, only report that and leave it untouched. -/
def init (fs : FS) (a : InitArgs) (ans : PromptAnswers) : List Effect :=
  let e0 := Effect.echo "Initializing project..."
  let dirEffs : List Effect :=
    if fs.pathExists ".aiswarm" then []
    else [.makeDirs ".aiswarm", .echo "Created configuration directory: .aiswarm"]
  let fileEffs : List Effect :=
    if fs.pathExists configFilePath then [.echo "Configuration file already exists."]
    else
      let tc := a.test_command.getD ans.test_command
      let port := a.port.getD ans.port
      let db := a.default_branch.getD ans.default_branch
      [.writeFile configFilePath (renderConfig tc ("http://localhost:" ++ port) db),
        .echo ("Created configuration file: " ++ configFilePath)]
  e0 :: dirEffs ++ fileEffs ++ [.echo "Project initialized."]

/-! ## Helper lemmas -/

theorem string_data_append (a b : String) : (a ++ b).data = a.data ++ b.data := by
  cases a; cases b; rfl

theorem string_append_cancel_left {s a b : String} (h : s ++ a = s ++ b) :
    a = b := by
  have hd := congrArg String.data h
  rw [string_data_append, string_data_append] at hd
  have hd' := List.append_cancel_left hd
  cases a; cases b
  exact congrArg String.mk hd'

theorem taskGo_snd (fs : FS) (git : List String → GitRes) (a : TaskArgs)
    (pre : List Effect) (sb : String) :
    (taskGo fs git a pre sb).2 = Except.ok () := by
  unfold taskGo
  dsimp only
  split
  · rfl
  · split <;> rfl

theorem isMutation_receiveEcho (fs : FS) (a : TaskArgs) :
    isMutation (taskReceiveEcho fs a) = false := by
  unfold taskReceiveEcho
  split <;> rfl

theorem isReadConfig_receiveEcho (fs : FS) (a : TaskArgs) :
    isReadConfig (taskReceiveEcho fs a) = false := by
  unfold taskReceiveEcho
  split <;> rfl

/-! ## Claim theorems -/

/-- C5: branch-name sanitization is total over all strings; its output is
lowercase (no ASCII uppercase survives), drawn from `[a-z0-9-]`, at most 50
characters long, and whitespace-free; the empty string maps to itself and
`"Add User Auth!!"` maps to `"add-user-auth"`. -/
theorem sanitize_branch_name_spec (s : String) :
    (get_sanitized_branch_name s).data.all goodChar = true ∧
    (get_sanitized_branch_name s).length ≤ 50 ∧
    (get_sanitized_branch_name s).data.all (fun c => !(isPySpace c)) = true ∧
    (get_sanitized_branch_name s).data.all (fun c => !(isAsciiUpper c)) = true ∧
    get_sanitized_branch_name "" = "" ∧
    get_sanitized_branch_name "Add User Auth!!" = "add-user-auth" := by
  refine ⟨List.all_eq_true.mpr (sanitize_all_good s), sanitize_length_le s,
    ?_, ?_, by decide, by decide⟩
  · refine List.all_eq_true.mpr fun c hc => ?_
    simp [good_not_space c (sanitize_all_good s c hc)]
  · refine List.all_eq_true.mpr fun c hc => ?_
    simp [good_not_upper c (sanitize_all_good s c hc)]

/-! ## Concrete fixtures for witnesses and counterexamples -/

/-- A git oracle on which every invocation succeeds, reporting `main` as the
checked-out branch. -/
def gAllOk : List String → GitRes := fun _ => GitRes.ok "main"

/-- Filesystem with no worktrees and no configuration file. -/
def fsNoTasks : FS :=
  { cwd := "/repo", isFile := fun _ => false, pathExists := fun _ => false,
    readFile := fun _ => "", listdir := fun _ => [], config := .missing }

/-- Filesystem whose configuration file exists but is not decodable JSON. -/
def fsMalformed : FS :=
  { cwd := "/repo", isFile := fun _ => false,
    pathExists := fun p => p == ".aiswarm" || p == configFilePath,
    readFile := fun _ => "", listdir := fun _ => [], config := .malformed }

/-- Filesystem with exactly the worktree of task `fix-login-bug` and no
configuration file. -/
def fsOneTask : FS :=
  { cwd := "/repo", isFile := fun _ => false,
    pathExists := fun p => p == ".worktrees" || p == ".worktrees/fix-login-bug",
    readFile := fun _ => "", listdir := fun p =>
      if p == ".worktrees" then ["fix-login-bug"] else [],
    config := .missing }

/-- Plain `task` invocation: `task Fix login bug` with no options. -/
def argsFix : TaskArgs :=
  { prompt := ["Fix", "login", "bug"], from_branch := none,
    test_file := none, test_action := .create }

/-- `task Fix login bug --from-branch develop`. -/
def argsFixFrom : TaskArgs :=
  { prompt := ["Fix", "login", "bug"], from_branch := some "develop",
    test_file := none, test_action := .create }

/-! ## C1 (config loading during task start) -/

/-- C1 counterexample: with the configuration file present but malformed and
no `--from-branch` override, the load raises `json.JSONDecodeError` out of
the `task` command instead of yielding the defaults — only
`FileNotFoundError` is caught. -/
theorem task_malformed_config_raises :
    (task fsMalformed gAllOk argsFix).2 = Except.error PyExn.jsonDecodeError ∧
    loadDefaultBranch ConfigFileState.malformed ≠ Except.ok "master" := by
  constructor
  · rfl
  · intro h
    exact Except.noConfusion h

/-- C1 (amended): the configuration load during task start fails soft only
for a missing file — absence yields the default source branch `master` and
the command completes without an exception; a file that exists but is
malformed JSON raises `json.JSONDecodeError` to the caller. -/
theorem config_load_soft_only_for_missing :
    loadDefaultBranch ConfigFileState.missing = Except.ok "master" ∧
    loadDefaultBranch ConfigFileState.malformed =
      Except.error PyExn.jsonDecodeError ∧
    (∀ (fs : FS) (git : List String → GitRes) (a : TaskArgs),
      fs.config = ConfigFileState.malformed → a.from_branch = none →
      (task fs git a).2 = Except.error PyExn.jsonDecodeError) ∧
    (∀ (fs : FS) (git : List String → GitRes) (a : TaskArgs),
      fs.config = ConfigFileState.missing → a.from_branch = none →
      (task fs git a).2 = Except.ok ()) := by
  refine ⟨rfl, rfl, ?_, ?_⟩
  · intro fs git a hcfg hfb
    unfold task
    rw [hfb, hcfg]
    rfl
  · intro fs git a hcfg hfb
    unfold task
    rw [hfb, hcfg]
    exact taskGo_snd fs git a _ "master"

/-- Witness for C1 (amended) at concrete states. -/
theorem config_load_soft_only_for_missing_witness :
    (task fsMalformed gAllOk argsFix).2 = Except.error PyExn.jsonDecodeError ∧
    (task fsNoTasks gAllOk argsFix).2 = Except.ok () :=
  ⟨config_load_soft_only_for_missing.2.2.1 fsMalformed gAllOk argsFix rfl rfl,
   config_load_soft_only_for_missing.2.2.2 fsNoTasks gAllOk argsFix rfl rfl⟩

/-! ## C2 (starting a task twice) -/

theorem taskGo_exists_eq (fs : FS) (git : List String → GitRes) (a : TaskArgs)
    (pre : List Effect) (sb : String)
    (hex : fs.pathExists (".worktrees/" ++ taskBranchName fs a) = true) :
    taskGo fs git a pre sb =
      (pre ++ [Effect.echo "Worktree for this task already exists."],
        Except.ok ()) := by
  unfold taskGo
  dsimp only
  rw [if_pos hex]

/-- C2: when the worktree directory of the (computed) branch name already
exists, `task` reports the existing worktree, succeeds, and performs no git
invocation, no directory creation, and no file write.  The source-branch
resolution is assumed not to raise (see C1 for the malformed-config
exception). -/
theorem task_idempotent_on_existing_worktree (fs : FS)
    (git : List String → GitRes) (a : TaskArgs) (sb : String)
    (hsb : sourceBranchResult fs.config a.from_branch = Except.ok sb)
    (hex : fs.pathExists (".worktrees/" ++ taskBranchName fs a) = true) :
    (task fs git a).2 = Except.ok () ∧
    Effect.echo "Worktree for this task already exists." ∈ (task fs git a).1 ∧
    (task fs git a).1.filter isMutation = [] := by
  unfold task
  cases hfb : a.from_branch with
  | some sb' =>
    dsimp only
    rw [taskGo_exists_eq fs git a _ sb' hex]
    refine ⟨rfl, by simp, ?_⟩
    simp only [List.cons_append, List.nil_append, List.filter_cons,
      List.filter_nil, isMutation_receiveEcho fs a]
    rfl
  | none =>
    rw [hfb] at hsb
    unfold sourceBranchResult at hsb
    dsimp only at hsb ⊢
    rw [hsb]
    dsimp only
    rw [taskGo_exists_eq fs git a _ sb hex]
    refine ⟨rfl, by simp, ?_⟩
    simp only [List.cons_append, List.nil_append, List.filter_cons,
      List.filter_nil, isMutation_receiveEcho fs a]
    rfl

/-- Witness for C2: a second `task Fix login bug` with the worktree already
on disk. -/
theorem task_idempotent_on_existing_worktree_witness :
    (task fsOneTask gAllOk argsFix).2 = Except.ok () ∧
    Effect.echo "Worktree for this task already exists." ∈
      (task fsOneTask gAllOk argsFix).1 ∧
    (task fsOneTask gAllOk argsFix).1.filter isMutation = [] :=
  task_idempotent_on_existing_worktree fsOneTask gAllOk argsFix "master"
    rfl (by decide)

/-! ## C3 (complete on a missing worktree) -/

/-- C3: when the worktree directory of the task name does not exist,
`complete` reports `NotFound`, issues no git command, and performs no
mutation at all. -/
theorem complete_missing_worktree_notFound (fs : FS)
    (git : List String → GitRes) (tn : String)
    (h : fs.pathExists (".worktrees/" ++ tn) = false) :
    (complete fs git tn).2 = CompleteOutcome.notFound ∧
    gitTrace (complete fs git tn).1 = [] ∧
    (complete fs git tn).1.filter isMutation = [] := by
  unfold complete
  dsimp only
  rw [if_neg (by simp [h])]
  exact ⟨rfl, rfl, rfl⟩

/-- Witness for C3: completing `fix-login-bug` on an empty filesystem. -/
theorem complete_missing_worktree_notFound_witness :
    (complete fsNoTasks gAllOk "fix-login-bug").2 = CompleteOutcome.notFound ∧
    gitTrace (complete fsNoTasks gAllOk "fix-login-bug").1 = [] ∧
    (complete fsNoTasks gAllOk "fix-login-bug").1.filter isMutation = [] :=
  complete_missing_worktree_notFound fsNoTasks gAllOk "fix-login-bug" rfl

/-! ## C4 (complete: step sequence and failure behavior) -/

/-- C4: with the worktree present, the git commands `complete` issues are
always an initial segment of the six commands of `completeCmds` (stage,
allow-empty commit, current-branch query of the outer repository, no-ff
merge, worktree removal, branch deletion) — a failing step is the last
command issued, nothing afterwards runs, and nothing already run is
reissued or undone; on the `completed` outcome the trace is exactly the six
commands in that order. -/
theorem complete_steps_in_order (fs : FS) (git : List String → GitRes)
    (tn : String) (h : fs.pathExists (".worktrees/" ++ tn) = true) :
    (∃ k, gitTrace (complete fs git tn).1 = (completeCmds tn).take k) ∧
    ((complete fs git tn).2 = CompleteOutcome.completed →
      gitTrace (complete fs git tn).1 = completeCmds tn) ∧
    (complete fs git tn).2 ≠ CompleteOutcome.notFound := by
  unfold complete
  dsimp only
  rw [if_pos h]
  split
  · exact ⟨⟨1, rfl⟩, by simp, by simp⟩
  · split
    · exact ⟨⟨2, rfl⟩, by simp, by simp⟩
    · split
      · exact ⟨⟨3, rfl⟩, by simp, by simp⟩
      · split
        · exact ⟨⟨4, rfl⟩, by simp, by simp⟩
        · split
          · exact ⟨⟨5, rfl⟩, by simp, by simp⟩
          · split
            · exact ⟨⟨6, rfl⟩, by simp, by simp⟩
            · exact ⟨⟨6, rfl⟩, fun _ => rfl, by simp⟩

/-- Witness for C4: completing the existing task `fix-login-bug` with every
git call succeeding. -/
theorem complete_steps_in_order_witness :
    (∃ k, gitTrace (complete fsOneTask gAllOk "fix-login-bug").1 =
      (completeCmds "fix-login-bug").take k) ∧
    ((complete fsOneTask gAllOk "fix-login-bug").2 =
        CompleteOutcome.completed →
      gitTrace (complete fsOneTask gAllOk "fix-login-bug").1 =
        completeCmds "fix-login-bug") ∧
    (complete fsOneTask gAllOk "fix-login-bug").2 ≠
      CompleteOutcome.notFound :=
  complete_steps_in_order fsOneTask gAllOk "fix-login-bug" rfl

/-! ## C6 (init and the configuration file) -/

/-- Filesystem on which `.aiswarm` and a configuration file already exist. -/
def fsConfigured : FS :=
  { cwd := "/repo", isFile := fun _ => false,
    pathExists := fun p => p == ".aiswarm" || p == configFilePath,
    readFile := fun _ => "", listdir := fun _ => [],
    config := .valid (some (JVal.jstr "main")) }

/-- Default prompt answers of `init` (the click prompt defaults). -/
def ansDefault : PromptAnswers :=
  { test_command := "", port := "63342", default_branch := "master" }

/-- C6 counterexample: with a configuration file already on disk, `init`
performs no write at all — the existing file is not overwritten; the
command only reports that it already exists. -/
theorem init_existing_config_not_overwritten :
    (init fsConfigured ⟨none, none, none⟩ ansDefault).filter isWriteFile = [] ∧
    Effect.echo "Configuration file already exists." ∈
      init fsConfigured ⟨none, none, none⟩ ansDefault := by decide

/-- C6 (amended): `init` creates the configuration directory when absent and
writes the configuration document only when no configuration file exists;
an existing file is left untouched and reported as already existing. -/
theorem init_write_behavior (fs : FS) (a : InitArgs) (ans : PromptAnswers) :
    (fs.pathExists configFilePath = true →
      (init fs a ans).filter isWriteFile = [] ∧
      Effect.echo "Configuration file already exists." ∈ init fs a ans) ∧
    (fs.pathExists configFilePath = false →
      (init fs a ans).filter isWriteFile =
        [Effect.writeFile configFilePath
          (renderConfig (a.test_command.getD ans.test_command)
            ("http://localhost:" ++ a.port.getD ans.port)
            (a.default_branch.getD ans.default_branch))]) ∧
    (fs.pathExists ".aiswarm" = false →
      Effect.makeDirs ".aiswarm" ∈ init fs a ans) := by
  unfold init
  dsimp only
  refine ⟨fun hc => ?_, fun hc => ?_, fun hd => ?_⟩
  · rw [if_pos hc]
    by_cases hd : fs.pathExists ".aiswarm" = true
    · rw [if_pos hd]
      exact ⟨rfl, by simp⟩
    · rw [if_neg hd]
      exact ⟨rfl, by simp⟩
  · by_cases hd : fs.pathExists ".aiswarm" = true
    · rw [if_pos hd, if_neg (by simp [hc])]
      rfl
    · rw [if_neg hd, if_neg (by simp [hc])]
      rfl
  · rw [if_neg (by simp [hd])]
    by_cases hc : fs.pathExists configFilePath = true
    · rw [if_pos hc]
      simp
    · rw [if_neg hc]
      simp

/-- Witness for C6 (amended), at a configured and at an empty filesystem. -/
theorem init_write_behavior_witness :
    (init fsConfigured ⟨none, none, none⟩ ansDefault).filter isWriteFile = [] ∧
    (init fsNoTasks ⟨none, none, none⟩ ansDefault).filter isWriteFile =
      [Effect.writeFile configFilePath
        (renderConfig "" "http://localhost:63342" "master")] ∧
    Effect.makeDirs ".aiswarm" ∈ init fsNoTasks ⟨none, none, none⟩ ansDefault :=
  ⟨((init_write_behavior fsConfigured ⟨none, none, none⟩ ansDefault).1 rfl).1,
   (init_write_behavior fsNoTasks ⟨none, none, none⟩ ansDefault).2.1 rfl,
   (init_write_behavior fsNoTasks ⟨none, none, none⟩ ansDefault).2.2 rfl⟩

/-! ## C7 (who reads and writes the configuration document) -/

theorem contextFile_ne_configFile (bn : String) :
    (((".worktrees/" ++ bn) ++ "/.aiswarm") ++ "/context.md") ≠ configFilePath := by
  intro h
  have hd := congrArg String.data h
  rw [string_data_append, string_data_append, string_data_append] at hd
  have h1 := congrArg (fun l => l[1]?) hd
  simp only [List.append_assoc] at h1
  rw [List.getElem?_append_left (by decide)] at h1
  exact absurd h1 (by decide)

theorem taskGo_filter_readConfig (fs : FS) (git : List String → GitRes)
    (a : TaskArgs) (pre : List Effect) (sb : String) :
    (taskGo fs git a pre sb).1.filter isReadConfig =
      pre.filter isReadConfig := by
  unfold taskGo
  dsimp only
  split
  · simp [List.filter_append, isReadConfig]
  · split
    · simp [List.filter_append, isReadConfig]
    · simp [List.filter_append, isReadConfig]

theorem taskGo_filter_writesConfig (fs : FS) (git : List String → GitRes)
    (a : TaskArgs) (pre : List Effect) (sb : String) :
    (taskGo fs git a pre sb).1.filter writesConfigFile =
      pre.filter writesConfigFile := by
  unfold taskGo
  dsimp only
  split
  · simp [List.filter_append, writesConfigFile]
  · split
    · simp [List.filter_append, writesConfigFile]
    · simp [List.filter_append, writesConfigFile,
        contextFile_ne_configFile (taskBranchName fs a)]

theorem complete_filter_profile (fs : FS) (git : List String → GitRes)
    (tn : String) :
    (complete fs git tn).1.filter isReadConfig = [] ∧
    (complete fs git tn).1.filter writesConfigFile = [] := by
  unfold complete
  dsimp only
  by_cases h : fs.pathExists (".worktrees/" ++ tn) = true
  · rw [if_pos h]
    split
    · exact ⟨rfl, rfl⟩
    · split
      · exact ⟨rfl, rfl⟩
      · split
        · exact ⟨rfl, rfl⟩
        · split
          · exact ⟨rfl, rfl⟩
          · split
            · exact ⟨rfl, rfl⟩
            · split
              · exact ⟨rfl, rfl⟩
              · exact ⟨rfl, rfl⟩
  · rw [if_neg h]
    exact ⟨rfl, rfl⟩

theorem status_filter_profile (fs : FS) :
    (status fs).filter isReadConfig = [] ∧
    (status fs).filter writesConfigFile = [] := by
  unfold status
  dsimp only
  split
  · exact ⟨rfl, rfl⟩
  · constructor <;>
      simp [List.filter_append, List.filter_map, Function.comp,
        isReadConfig, writesConfigFile]

theorem task_filter_readConfig (fs : FS) (git : List String → GitRes)
    (a : TaskArgs) :
    (task fs git a).1.filter isReadConfig =
      (if a.from_branch = none then [Effect.readConfigFile] else []) := by
  unfold task
  cases hfb : a.from_branch with
  | some b =>
    dsimp only
    rw [taskGo_filter_readConfig]
    simp [List.filter, isReadConfig_receiveEcho fs a]
  | none =>
    dsimp only
    cases hl : loadDefaultBranch fs.config with
    | error e =>
      dsimp only
      simp only [List.cons_append, List.nil_append, List.filter_cons,
        List.filter_nil, isReadConfig_receiveEcho fs a]
      rfl
    | ok sb =>
      dsimp only
      rw [taskGo_filter_readConfig]
      simp only [List.cons_append, List.nil_append, List.filter_cons,
        List.filter_nil, isReadConfig_receiveEcho fs a]
      rfl

theorem isWritesConfig_receiveEcho (fs : FS) (a : TaskArgs) :
    writesConfigFile (taskReceiveEcho fs a) = false := by
  unfold taskReceiveEcho
  split <;> rfl

theorem task_filter_writesConfig (fs : FS) (git : List String → GitRes)
    (a : TaskArgs) :
    (task fs git a).1.filter writesConfigFile = [] := by
  unfold task
  cases hfb : a.from_branch with
  | some b =>
    dsimp only
    rw [taskGo_filter_writesConfig]
    simp [List.filter, isWritesConfig_receiveEcho fs a]
  | none =>
    dsimp only
    cases hl : loadDefaultBranch fs.config with
    | error e =>
      dsimp only
      simp only [List.cons_append, List.nil_append, List.filter_cons,
        List.filter_nil, isWritesConfig_receiveEcho fs a]
      rfl
    | ok sb =>
      dsimp only
      rw [taskGo_filter_writesConfig]
      simp only [List.cons_append, List.nil_append, List.filter_cons,
        List.filter_nil, isWritesConfig_receiveEcho fs a]
      rfl

/-- C7 counterexample: at a filesystem with one active task, neither
`complete` nor `status` ever reads the configuration document — it is not
read by every task-lifecycle operation. -/
theorem complete_status_no_config_read :
    (complete fsOneTask gAllOk "fix-login-bug").1.filter isReadConfig = [] ∧
    (status fsOneTask).filter isReadConfig = [] := by decide

/-- C7 (amended): the configuration document is read only by task start,
and only when no `--from-branch` override is given; `complete` and `status`
never read it; no task-lifecycle operation writes it. -/
theorem config_read_mutation_profile :
    (∀ (fs : FS) (git : List String → GitRes) (tn : String),
      (complete fs git tn).1.filter isReadConfig = [] ∧
      (complete fs git tn).1.filter writesConfigFile = []) ∧
    (∀ fs : FS, (status fs).filter isReadConfig = [] ∧
      (status fs).filter writesConfigFile = []) ∧
    (∀ (fs : FS) (git : List String → GitRes) (a : TaskArgs),
      (task fs git a).1.filter isReadConfig =
        (if a.from_branch = none then [Effect.readConfigFile] else []) ∧
      (task fs git a).1.filter writesConfigFile = []) :=
  ⟨complete_filter_profile, status_filter_profile,
   fun fs git a => ⟨task_filter_readConfig fs git a,
     task_filter_writesConfig fs git a⟩⟩

/-! ## C8 (post-processing of the configured source branch) -/

/-- C8: an explicit `--from-branch` is used verbatim (for every
configuration state) and skips the configuration read; without an override
the configured `default_branch` value is converted to a string, stripped of
surrounding whitespace, and cleared of every double-quote character; a
missing key falls back to `"master"`. -/
theorem source_branch_postprocessing :
    (∀ (cfg : ConfigFileState) (b : String),
      sourceBranchResult cfg (some b) = Except.ok b) ∧
    (∀ (fs : FS) (git : List String → GitRes) (a : TaskArgs) (b : String),
      a.from_branch = some b →
      (task fs git a).1.filter isReadConfig = []) ∧
    (∀ v : JVal, loadDefaultBranch (ConfigFileState.valid (some v)) =
      Except.ok (removeQuotes (pyStrip (pyStr v)))) ∧
    loadDefaultBranch (ConfigFileState.valid none) = Except.ok "master" ∧
    loadDefaultBranch
        (ConfigFileState.valid (some (JVal.jstr "  \"develop\"  "))) =
      Except.ok "develop" := by
  refine ⟨fun cfg b => rfl, ?_, fun v => rfl, rfl, rfl⟩
  intro fs git a b hfb
  have hprofile := task_filter_readConfig fs git a
  rw [hfb] at hprofile
  simpa using hprofile

/-- Witness for C8: `--from-branch develop` on a malformed configuration is
used verbatim and the configuration is never read. -/
theorem source_branch_postprocessing_witness :
    sourceBranchResult ConfigFileState.malformed (some "develop") =
      Except.ok "develop" ∧
    (task fsMalformed gAllOk argsFixFrom).1.filter isReadConfig = [] :=
  ⟨source_branch_postprocessing.1 ConfigFileState.malformed "develop",
   source_branch_postprocessing.2.1 fsMalformed gAllOk argsFixFrom
     "develop" rfl⟩

/-! ## C9 (next-action hint selection) -/

theorem implementMsg_char26 : implementMsg.data[26]? = some 'i' := by decide

theorem createMsg_char26 (s : String) :
    (createMsg s).data[26]? = some 'c' := by
  unfold createMsg
  rw [string_data_append, string_data_append, List.append_assoc]
  rw [List.getElem?_append_left (by decide)]
  decide

theorem modifyMsg_char26 (s : String) :
    (modifyMsg s).data[26]? = some 'm' := by
  unfold modifyMsg
  rw [string_data_append, string_data_append, List.append_assoc]
  rw [List.getElem?_append_left (by decide)]
  decide

theorem implementMsg_ne_modifyMsg (s : String) : implementMsg ≠ modifyMsg s := by
  intro h
  have h26 := congrArg (fun u : String => u.data[26]?) h
  simp only at h26
  rw [modifyMsg_char26 s] at h26
  exact absurd h26 (by decide)

theorem createMsg_ne_modifyMsg (t s : String) : createMsg t ≠ modifyMsg s := by
  intro h
  have h26 := congrArg (fun u : String => u.data[26]?) h
  simp only at h26
  rw [modifyMsg_char26 s, createMsg_char26 t] at h26
  exact absurd h26 (by decide)

/-- C9: the next-action hint depends only on the test-file and test-action
inputs: no test file (or an empty one) selects the implement-feature
phrasing regardless of the action; with a test file and the action omitted
(click default `create`) the create-failing-test phrasing is selected; the
modify-existing-test phrasing appears exactly when a (nonempty) test file
is given together with action `modify`. -/
theorem next_action_determination :
    (∀ ta : TestAction, nextAction none ta = implementMsg) ∧
    (∀ ta : TestAction, nextAction (some "") ta = implementMsg) ∧
    (∀ tf : String, tf ≠ "" →
      nextAction (some tf) (resolveTestAction none) = createMsg tf) ∧
    (∀ tf : String, tf ≠ "" →
      nextAction (some tf) TestAction.modify = modifyMsg tf) ∧
    (∀ (tf : Option String) (ta : TestAction) (s : String),
      nextAction tf ta = modifyMsg s →
      tf ≠ none ∧ tf ≠ some "" ∧ ta = TestAction.modify) := by
  refine ⟨fun ta => rfl, fun ta => rfl, ?_, ?_, ?_⟩
  · intro tf h
    simp only [nextAction, resolveTestAction, Option.getD]
    rw [if_neg (by simp [h])]
  · intro tf h
    simp only [nextAction]
    rw [if_neg (by simp [h])]
  · intro tf ta s h
    cases tf with
    | none => exact absurd h (implementMsg_ne_modifyMsg s)
    | some t =>
      by_cases ht : t = ""
      · subst ht
        exact absurd h (implementMsg_ne_modifyMsg s)
      · simp only [nextAction] at h
        rw [if_neg (by simp [ht])] at h
        cases ta with
        | create => exact absurd h (createMsg_ne_modifyMsg t s)
        | modify =>
          exact ⟨fun he => Option.noConfusion he,
            fun he => ht (Option.some.inj he), rfl⟩

/-- Witness for C9 at a concrete test-file path. -/
theorem next_action_determination_witness :
    nextAction (some "tests/test_auth.py") (resolveTestAction none) =
      createMsg "tests/test_auth.py" ∧
    nextAction (some "tests/test_auth.py") TestAction.modify =
      modifyMsg "tests/test_auth.py" ∧
    (some "tests/test_auth.py" ≠ (none : Option String) ∧
      some "tests/test_auth.py" ≠ some "" ∧
      TestAction.modify = TestAction.modify) :=
  ⟨next_action_determination.2.2.1 _ (by decide),
   next_action_determination.2.2.2.1 _ (by decide),
   next_action_determination.2.2.2.2 (some "tests/test_auth.py")
     TestAction.modify "tests/test_auth.py"
     (next_action_determination.2.2.2.1 _ (by decide))⟩

/-! ## C10 (complete takes the task name verbatim) -/

/-- Filesystem holding exactly the worktree created for description `D`
(directory named after the sanitized branch name). -/
def singleTaskFS (D : String) : FS :=
  { cwd := "/repo", isFile := fun _ => false,
    pathExists := fun p => p == ".worktrees/" ++ get_sanitized_branch_name D,
    readFile := fun _ => "", listdir := fun _ => [], config := .missing }

theorem complete_exists_ne_notFound (fs : FS) (git : List String → GitRes)
    (tn : String) (h : fs.pathExists (".worktrees/" ++ tn) = true) :
    (complete fs git tn).2 ≠ CompleteOutcome.notFound := by
  unfold complete
  dsimp only
  rw [if_pos h]
  split
  · simp
  · split
    · simp
    · split
      · simp
      · split
        · simp
        · split
          · simp
          · split
            · simp
            · simp

/-- C10: `complete` applies no sanitization to its task-name argument: the
name appears verbatim in every command line (worktree path, merge, branch
deletion); on a filesystem holding exactly the worktree of description `D`,
completion with any name other than the sanitized branch name of `D` is
`NotFound`, while the sanitized name itself is accepted. -/
theorem complete_uses_task_name_verbatim (D tn : String)
    (git : List String → GitRes)
    (h : tn ≠ get_sanitized_branch_name D) :
    (complete (singleTaskFS D) git tn).2 = CompleteOutcome.notFound ∧
    (complete (singleTaskFS D) git (get_sanitized_branch_name D)).2 ≠
      CompleteOutcome.notFound ∧
    completeCmds tn =
      [["git", "-C", ".worktrees/" ++ tn, "add", "."],
       ["git", "-C", ".worktrees/" ++ tn, "commit", "--allow-empty", "-m",
         "feat: Complete task " ++ tn],
       ["git", "rev-parse", "--abbrev-ref", "HEAD"],
       ["git", "merge", "--no-ff", tn],
       ["git", "worktree", "remove", ".worktrees/" ++ tn],
       ["git", "branch", "-d", tn]] := by
  have hne : (".worktrees/" ++ tn) ≠
      (".worktrees/" ++ get_sanitized_branch_name D) :=
    fun he => h (string_append_cancel_left he)
  refine ⟨?_, ?_, rfl⟩
  · unfold complete
    dsimp only
    rw [if_neg (by simp [singleTaskFS, hne])]
  · exact complete_exists_ne_notFound (singleTaskFS D) git
      (get_sanitized_branch_name D) (by simp [singleTaskFS])

/-- Witness for C10: the unsanitized description itself is rejected while
its sanitized branch name is accepted. -/
theorem complete_uses_task_name_verbatim_witness :
    (complete (singleTaskFS "Add User Auth!!") gAllOk "Add User Auth!!").2 =
      CompleteOutcome.notFound ∧
    (complete (singleTaskFS "Add User Auth!!") gAllOk
        (get_sanitized_branch_name "Add User Auth!!")).2 ≠
      CompleteOutcome.notFound ∧
    completeCmds "Add User Auth!!" =
      [["git", "-C", ".worktrees/" ++ "Add User Auth!!", "add", "."],
       ["git", "-C", ".worktrees/" ++ "Add User Auth!!", "commit",
         "--allow-empty", "-m", "feat: Complete task " ++ "Add User Auth!!"],
       ["git", "rev-parse", "--abbrev-ref", "HEAD"],
       ["git", "merge", "--no-ff", "Add User Auth!!"],
       ["git", "worktree", "remove", ".worktrees/" ++ "Add User Auth!!"],
       ["git", "branch", "-d", "Add User Auth!!"]] :=
  complete_uses_task_name_verbatim "Add User Auth!!" "Add User Auth!!"
    gAllOk (by decide)

end AiSwarm
